import Mathlib

/-!
Verification of the BLE device-connection manager (`src/App.tsx`).

Shallow embedding of the connection / reconnection logic of the single React
component in `src/App.tsx`.  The component's mutable refs and React state are
collected in one record `St`; each `async` routine of the source becomes an
explicit state-passing function.  Asynchronous transport outcomes (GATT
connect, service/characteristic resolution, `startNotifications`,
`requestDevice`, `getDevices`) are decided by environment records passed to
each run, so that one Lean function covers every possible outcome of the
corresponding JS routine.

Modelling conventions:

* A `BluetoothDevice` is a `PeripheralRef` (stable `id`, optional `name`);
  per the design, equality of devices is by `id`, and since the component
  uses one fixed service UUID and one fixed characteristic UUID, the
  characteristic obtained from a device is identified with the device's id.
* DOM event-listener semantics: `addEventListener` is idempotent for the same
  (target, listener) pair; `removeEventListener` removes exactly that pair.
  The single notification handler `handleValueChange` is a stable
  `useCallback`, so notification registrations are just a duplicate-free list
  of characteristic (= device) ids.  Each call to `registerDisconnectHandler`
  allocates a *fresh* closure, modelled by a generation counter.
* `act` is transport-side truth: the set of characteristics whose
  notifications are physically flowing (the link is up and
  `startNotifications` succeeded).  A rejected `gatt.connect()` implies the
  link is down, so it erases the target from `act`; a disconnect event erases
  it; a service/characteristic-resolution failure leaves the (still standing)
  link and any previous subscription intact.
* JS exceptions are modelled with `Except BleErr`: a function that can let an
  exception escape to its caller returns `St × Except BleErr _`; the partial
  state at the throw point travels with the error.
* Ghost instrumentation (not in the source, read only by theorems):
  `attempts` records, for every `connectToDevice` invocation, the target id
  and the `suppressErrorStatus` flag it was called with; `storeWrites` and
  `getDevCalls` count `localStorage.setItem` and `navigator.bluetooth.getDevices()`
  calls; `clock` is the monotone time source feeding `toLocaleTimeString()`.
-/

namespace Beep

/-- A JS exception value as the component inspects it (`err?.name`, `err?.message`). -/
structure BleErr where
  name : String
  message : String
deriving Repr, DecidableEq

/-- A `BluetoothDevice`: stable `id` plus optional human-readable `name`. -/
structure PeripheralRef where
  id : String
  name : Option String
deriving Repr, DecidableEq

/-- Model of `device.name || device.id` (JS: empty string is falsy). -/
def PeripheralRef.display (d : PeripheralRef) : String :=
  match d.name with
  | some n => if n = "" then d.id else n
  | none => d.id

/-- Result of `connectToDevice`: `{ ok: true }` or `{ ok: false, error }`. -/
inductive ConnRes where
  | ok
  | failed (e : BleErr)
deriving Repr, DecidableEq

/-- Environment decision for one `connect → getPrimaryService → getCharacteristic
→ startNotifications` sequence: where (if anywhere) it rejects. -/
inductive ConnOutcome where
  | ok
  | failConnect (e : BleErr)
  | failService (e : BleErr)
  | failChar (e : BleErr)
  | failStartNot (e : BleErr)
deriving Repr, DecidableEq

/-- The component's state: React state (`status`, `log`), the refs, the
relevant browser state (registered listeners, storage, physically active
notifications), and ghost instrumentation. -/
structure St where
  /-- the `status` React state. -/
  status : String
  /-- the `log` React state, newest first. -/
  log : List String
  /-- ghost clock feeding the log timestamps. -/
  clock : Nat
  /-- the ref `charRef.current`, as the characteristic's (= device's) id. -/
  charRef : Option String
  /-- whether `notifyHandlerRef.current ≠ null`. -/
  notifyHandler : Bool
  /-- the ref `deviceRef.current`. -/
  deviceRef : Option PeripheralRef
  /-- the ref `disconnectHandlerRef.current`, as the closure generation. -/
  dhRef : Option Nat
  /-- registered `gattserverdisconnected` listeners: (device id, closure generation). -/
  discL : List (String × Nat)
  /-- next fresh closure generation. -/
  nextG : Nat
  /-- characteristic ids carrying the `characteristicvaluechanged` listener. -/
  notifyL : List String
  /-- characteristic ids whose notifications are physically active. -/
  act : List String
  /-- the stored `localStorage["ble:lastDeviceId"]`. -/
  storage : Option String
  /-- ghost: number of `localStorage.setItem` calls. -/
  storeWrites : Nat
  /-- ghost: number of `navigator.bluetooth.getDevices()` calls. -/
  getDevCalls : Nat
  /-- the latch `autoConnectAttemptedRef.current`. -/
  autoDone : Bool
  /-- ghost: every `connectToDevice` invocation as (target id, suppressErrorStatus). -/
  attempts : List (String × Bool)
deriving Repr, DecidableEq

/-- Initial state at mount; `store0` is whatever `localStorage` persisted
from earlier sessions. -/
def initSt (store0 : Option String) : St :=
  { status := "Disconnected", log := [], clock := 0, charRef := none,
    notifyHandler := false, deviceRef := none, dhRef := none, discL := [],
    nextG := 0, notifyL := [], act := [], storage := store0, storeWrites := 0,
    getDevCalls := 0, autoDone := false, attempts := [] }

/-- Model of `append` (src/App.tsx lines 19-21): prepend the timestamped message and
keep at most 100 entries (`[ts + " " + s, ...prev].slice(0, 100)`). -/
def appendLog (ts msg : String) (log : List String) : List String :=
  ((ts ++ " " ++ msg) :: log).take 100

/-- Model of `append` applied to the component state, drawing the timestamp from the
ghost clock. -/
def push (msg : String) (s : St) : St :=
  { s with log := appendLog (toString s.clock) msg s.log, clock := s.clock + 1 }

/-- Model of `setStatus(v)`. -/
def setStatus (v : String) (s : St) : St := { s with status := v }

/-- Model of `charRef.current = null`. -/
def clearCharRef (s : St) : St := { s with charRef := none }

/-- Model of `deviceRef.current = device`. -/
def setDeviceRef (d : PeripheralRef) (s : St) : St := { s with deviceRef := some d }

/-- Model of `localStorage.setItem(DEVICE_STORAGE_KEY, dev.id)` (plus the ghost write counter). -/
def persistId (dev : PeripheralRef) (s : St) : St :=
  { s with storage := some dev.id, storeWrites := s.storeWrites + 1 }

/-- ghost bump for one `navigator.bluetooth.getDevices()` call. -/
def countGetDevices (s : St) : St := { s with getDevCalls := s.getDevCalls + 1 }

/-- ghost record of one `connectToDevice` invocation. -/
def noteAttempt (dId : String) (sup : Bool) (s : St) : St :=
  { s with attempts := s.attempts ++ [(dId, sup)] }

/-- Model of `autoConnectAttemptedRef.current = true`. -/
def markAutoDone (s : St) : St := { s with autoDone := true }

/-- Model of `handleValueChange` (lines 23-37): decode the payload and log
`"Notify: ..."` (the JSON inspection and `alert`s touch no component state). -/
def handleValueChange (payload : String) (s : St) : St :=
  push ("Notify: " ++ payload) s

/-- ASCII lower-casing of one character (for the `/gesture|activation/i` test). -/
def lowerChar (c : Char) : Char :=
  if 'A' ≤ c ∧ c ≤ 'Z' then Char.ofNat (c.toNat + 32) else c

/-- Does `pat` occur at the head of `l`? -/
def matchHere : List Char → List Char → Bool
  | [], _ => true
  | _ :: _, [] => false
  | p :: ps, c :: cs => p == c && matchHere ps cs

/-- Does `pat` occur anywhere in `l`? -/
def hasSub (pat : List Char) : List Char → Bool
  | [] => matchHere pat []
  | c :: cs => matchHere pat (c :: cs) || hasSub pat cs

/-- Case-insensitive substring test on an ASCII pattern, the meaning of
`/gesture|activation/i.test(message)` for one alternative. -/
def containsCI (hay pat : String) : Bool :=
  hasSub pat.toList (hay.toList.map lowerChar)

/-- The gesture-required classification of the auto-reconnect effect
(lines 191-194): a `SecurityError`, or a message matching `/gesture|activation/i`. -/
def requiresGesture (e : BleErr) : Bool :=
  e.name == "SecurityError" || containsCI e.message "gesture" ||
    containsCI e.message "activation"

/-- Model of `setupNotifications` (lines 39-49).  If `charRef.current` and
`notifyHandlerRef.current` are both set, remove the old characteristic's
listener; record the new characteristic and handler; `await startNotifications`
(its rejection `failAt` escapes to the caller with the partial state); on
success the notifications become active and the listener is added. -/
def setupNotifications (cId : String) (failAt : Option BleErr) (s : St) :
    St × Option BleErr :=
  let nl := match s.charRef, s.notifyHandler with
    | some c0, true => s.notifyL.erase c0
    | _, _ => s.notifyL
  let s := { s with notifyL := nl, charRef := some cId, notifyHandler := true }
  match failAt with
  | some e => (s, some e)
  | none => ({ s with act := s.act.insert cId, notifyL := s.notifyL.insert cId }, none)

/-- Model of `registerDisconnectHandler` (lines 51-65): if a device and a previous
closure are recorded, remove that closure from the recorded device; register a
fresh `onDisconnect` closure on `d` and record both. -/
def registerDisconnectHandler (d : PeripheralRef) (s : St) : St :=
  let ls := match s.deviceRef, s.dhRef with
    | some r, some g => s.discL.filter (fun p => !(p == (r.id, g)))
    | _, _ => s.discL
  { s with discL := ls ++ [(d.id, s.nextG)], deviceRef := some d,
           dhRef := some s.nextG, nextG := s.nextG + 1 }

/-- The catch block of `connectToDevice` (lines 87-95): clear `charRef`,
set the error status unless suppressed, log the error. -/
def connectFail (e : BleErr) (suppress : Bool) (s : St) : St :=
  let s := clearCharRef s
  let s := if suppress then s else setStatus "Error / Cancelled" s
  push ("Error: " ++ e.message) s

/-- Model of `connectToDevice` (lines 69-96).  Register the disconnect handler (outside
the try), then inside the try: status `Connecting…`, log, the transport
sequence according to `o`, `setupNotifications`, status `Connected`.  The
catch converts every rejection into `ConnRes.failed`.  The `Except` layer is
what the *caller* sees: `.error` would be an exception escaping past the
catch, which the structure of the definition never produces. -/
def connectToDevice (d : PeripheralRef) (suppress : Bool) (o : ConnOutcome)
    (s0 : St) : St × Except BleErr ConnRes :=
  let s := registerDisconnectHandler d s0
  let s := noteAttempt d.id suppress s
  let s := setStatus "Connecting…" s
  let s := push ("Connecting to " ++ d.display) s
  match o with
  | .ok =>
      let s := (setupNotifications d.id none s).1
      let s := setStatus "Connected (notifications on)" s
      let s := push "Connected & listening for notifications" s
      (s, .ok .ok)
  | .failConnect e =>
      (connectFail e suppress { s with act := s.act.erase d.id }, .ok (.failed e))
  | .failService e => (connectFail e suppress s, .ok (.failed e))
  | .failChar e => (connectFail e suppress s, .ok (.failed e))
  | .failStartNot e =>
      let s := (setupNotifications d.id (some e) s).1
      (connectFail e suppress s, .ok (.failed e))

/-- The `onDisconnect` closure body (lines 56-60): status `Disconnected`,
log, clear `charRef`.  (It does not remove the notification listener and does
not touch `deviceRef`.) -/
def gattDisconnectBody (s : St) : St :=
  let s := setStatus "Disconnected" s
  let s := push "Device disconnected" s
  clearCharRef s

/-- The GATT server of device `dId` disconnects: its notifications stop, and
the `gattserverdisconnected` event runs every closure registered on `dId`. -/
def fireDisconnect (dId : String) (s : St) : St :=
  let s := { s with act := s.act.erase dId }
  (s.discL.filter (fun p => p.1 == dId)).foldl (fun t _ => gattDisconnectBody t) s

/-- A `characteristicvaluechanged` event on device `dId`'s characteristic:
the payload reaches `handleValueChange` iff the characteristic is physically
notifying and carries the listener. -/
def fireNotification (dId payload : String) (s : St) : St :=
  if s.act.contains dId && s.notifyL.contains dId then
    handleValueChange payload s
  else s

/-- Environment for one user click on *Connect BLE* (`connectBLE`). -/
structure ClickEnv where
  /-- whether `navigator.bluetooth` is present. -/
  btAvail : Bool
  /-- whether `typeof navigator.bluetooth.getDevices === "function"`. -/
  hasGetDevs : Bool
  /-- result of `navigator.bluetooth.getDevices()`. -/
  getDevsResult : Except BleErr (List PeripheralRef)
  /-- outcome of the tier-1 (in-memory device) connect sequence. -/
  tier1Out : ConnOutcome
  /-- outcome of the tier-2 (remembered device) connect sequence. -/
  tier2Out : ConnOutcome
  /-- result of `navigator.bluetooth.requestDevice` (`.error` = user cancelled). -/
  selection : Except BleErr PeripheralRef
  /-- outcome of the tier-3 (freshly selected device) connect sequence. -/
  tier3Out : ConnOutcome

/-- Model of `requestDeviceAndConnect` (lines 98-116): bail out if Web Bluetooth is
unavailable (returning `undefined` = `none`); otherwise status
`Requesting device…`, `await requestDevice` (a rejection escapes — there is no
try here), persist the selected id, log, and connect. -/
def requestDeviceAndConnect (env : ClickEnv) (s : St) :
    St × Except BleErr (Option ConnRes) :=
  if !env.btAvail then
    (push "Web Bluetooth API is not available in this browser."
      (setStatus "Web Bluetooth unavailable" s), .ok none)
  else
    match env.selection with
    | .error e => (setStatus "Requesting device…" s, .error e)
    | .ok dev =>
        match connectToDevice dev false env.tier3Out
            (push ("Saved device id " ++ dev.id ++ " for auto reconnect")
              (persistId dev (setStatus "Requesting device…" s))) with
        | (s, .ok r) => (s, .ok (some r))
        | (s, .error e) => (s, .error e)

/-- Tier 2 of `connectBLE` (lines 125-142): with a remembered id, an available
`navigator.bluetooth` and a `getDevices` function, enumerate granted devices
inside a try, look the remembered id up, record it in `deviceRef` and connect
(without options).  Returns `true` iff that connect succeeded (early return). -/
def quickReconnect (env : ClickEnv) (s : St) : St × Bool :=
  match s.storage with
  | none => (s, false)
  | some rid =>
    if env.btAvail && env.hasGetDevs then
      let s := countGetDevices (push "Checking saved devices list for quick reconnect." s)
      match env.getDevsResult with
      | .error e => (push ("Quick reconnect failed: " ++ e.message) s, false)
      | .ok devs =>
        match devs.find? (fun d => d.id == rid) with
        | none =>
            (push "Saved device not found in getDevices result. Need manual selection." s,
             false)
        | some saved =>
            match connectToDevice saved false env.tier2Out (setDeviceRef saved s) with
            | (s, .ok .ok) => (s, true)
            | (s, .ok (.failed _)) => (s, false)
            | (s, .error e) =>
                (push ("Quick reconnect failed: " ++ e.message) s, false)
    else (s, false)

/-- Tiers 2 and 3 of `connectBLE`: quick reconnect, then the interactive
request inside a try whose catch ignores the error (lines 144-151). -/
def connectBLETail (env : ClickEnv) (s : St) : St :=
  match quickReconnect env s with
  | (s, true) => s
  | (s, false) => (requestDeviceAndConnect env s).1

/-- Model of `connectBLE` (lines 118-152).  Tier 1: if `deviceRef.current` is set, try
it directly — this call sits outside every try, so an exception from it would
escape `connectBLE` (the `.error` of the result). -/
def connectBLE (env : ClickEnv) (s : St) : St × Except BleErr Unit :=
  match s.deviceRef with
  | some d =>
    let s1 := push "Attempting to reconnect using saved device in memory." s
    match connectToDevice d false env.tier1Out s1 with
    | (s2, .ok .ok) => (s2, .ok ())
    | (s2, .ok (.failed _)) => (connectBLETail env s2, .ok ())
    | (s2, .error e) => (s2, .error e)
  | none => (connectBLETail env s, .ok ())

/-- Environment for the automatic startup reconnect effect. -/
structure AutoEnv where
  /-- whether `navigator.bluetooth` is present. -/
  btAvail : Bool
  /-- whether `typeof navigator.bluetooth.getDevices === "function"`. -/
  hasGetDevs : Bool
  /-- result of `navigator.bluetooth.getDevices()`. -/
  devsResult : Except BleErr (List PeripheralRef)
  /-- outcome of the suppressed connect sequence on the remembered device. -/
  connOut : ConnOutcome

/-- The `useEffect` auto-reconnect (lines 154-211): guarded by the
`autoConnectAttemptedRef` latch; feature checks; read the remembered id;
enumerate granted devices; connect with `{ suppressErrorStatus: true }`; on
failure classify gesture-required (keeping the resolved device in `deviceRef`)
versus plain failure.  The trailing `.catch` turns any escaped exception into
the `Auto reconnect failed` state. -/
def autoReconnectEffect (env : AutoEnv) (s : St) : St :=
  if s.autoDone then s else
  let s := markAutoDone s
  if !env.btAvail then
    push "Web Bluetooth API is not available in this browser."
      (setStatus "Web Bluetooth unavailable" s)
  else if !env.hasGetDevs then
    push "Auto reconnect not supported in this browser (missing getDevices)." s
  else
    match s.storage with
    | none => push "No saved device id. Click Connect BLE first." s
    | some rid =>
      let s := countGetDevices
        (push "Attempting automatic reconnect…" (setStatus "Checking saved devices…" s))
      match env.devsResult with
      | .error e =>
        setStatus "Auto reconnect failed" (push ("Auto reconnect failed: " ++ e.message) s)
      | .ok devs =>
        match devs.find? (fun d => d.id == rid) with
        | none =>
          setStatus "Disconnected"
            (push "Previously saved device not found. Need manual reconnection." s)
        | some saved =>
          match connectToDevice saved true env.connOut
              (push ("Found saved device " ++ saved.display ++ ". Reconnecting…") s) with
          | (s, .ok .ok) => s
          | (s, .ok (.failed e)) =>
            if requiresGesture e then
              setDeviceRef saved (setStatus "Waiting for user action"
                (push "Browser requires a user gesture to reconnect. Click Connect BLE." s))
            else
              setStatus "Auto reconnect failed"
                (push "Auto reconnect failed. Please reconnect manually." s)
          | (s, .error e) =>
            setStatus "Auto reconnect failed" (push ("Auto reconnect failed: " ++ e.message) s)

/-- The externally observable operations after mount: a user click on
*Connect BLE*, a GATT disconnect of some device, a notification event. -/
inductive Op where
  | click (env : ClickEnv)
  | disc (dId : String)
  | notif (dId : String) (payload : String)

/-- Apply one operation (an unhandled rejection escaping `connectBLE` changes
no component state, so only the state component is kept). -/
def applyOp : Op → St → St
  | .click env, s => (connectBLE env s).1
  | .disc d, s => fireDisconnect d s
  | .notif d p, s => fireNotification d p s

/-- Run a sequence of operations. -/
def runOps (ops : List Op) (s : St) : St :=
  ops.foldl (fun t o => applyOp o t) s

/-- Reachable states: any persisted storage, the mount effect (which React
runs once, before any user interaction), then any operation sequence. -/
def Reachable (s : St) : Prop :=
  ∃ store0 a ops, s = runOps ops (autoReconnectEffect a (initSt store0))

/-- The characteristics whose payloads are being delivered to the handler:
physically notifying and carrying the listener. -/
def delivering (s : St) : List String :=
  s.act.filter (fun c => s.notifyL.contains c)

/-- The session-state projection of C5: everything the component owns
(status, refs, listener registrations, log, storage) — excluding the
transport-side `act` and the ghost counters. -/
def session (s : St) : String × Option PeripheralRef × Option String × Bool ×
    List String × List String × Option String :=
  (s.status, s.deviceRef, s.charRef, s.notifyHandler, s.notifyL, s.log, s.storage)

/-- An environment whose connect sequences all succeed (the restriction under
which the amended C1 holds). -/
def ClickEnv.okEnv (e : ClickEnv) : Prop :=
  e.tier1Out = ConnOutcome.ok ∧ e.tier2Out = ConnOutcome.ok ∧
    e.tier3Out = ConnOutcome.ok

/-- An operation whose connect attempts (if any) all succeed. -/
def OpOk : Op → Prop
  | .click e => e.okEnv
  | .disc _ => True
  | .notif _ _ => True

/-- Reachability through runs in which every connect attempt succeeds. -/
def ReachableOk (s : St) : Prop :=
  ∃ store0 a ops, a.connOut = ConnOutcome.ok ∧ (∀ o ∈ ops, OpOk o) ∧
    s = runOps ops (autoReconnectEffect a (initSt store0))

/-- Disconnect-listener bookkeeping: either nothing is registered, or exactly
the recorded closure is registered, on the recorded current device. -/
def InvDisc (s : St) : Prop :=
  (s.dhRef = none ∧ s.discL = []) ∨
  (∃ r g, s.deviceRef = some r ∧ s.dhRef = some g ∧ s.discL = [(r.id, g)])

/-- The in-memory device always carries the persisted identifier. -/
def InvStore (s : St) : Prop :=
  ∀ r, s.deviceRef = some r → s.storage = some r.id

/-- A recorded characteristic belongs to the recorded current device, and a
recorded characteristic implies a recorded handler. -/
def InvChar (s : St) : Prop :=
  ∀ c, s.charRef = some c →
    (∃ r, s.deviceRef = some r ∧ r.id = c) ∧ s.notifyHandler = true

/-- The listener and active-notification lists never hold duplicates
(`addEventListener` deduplicates; one subscription per characteristic). -/
def InvNodup (s : St) : Prop := s.notifyL.Nodup ∧ s.act.Nodup

/-- The state invariant maintained by every operation. -/
def Inv (s : St) : Prop := InvDisc s ∧ InvStore s ∧ InvChar s ∧ InvNodup s

/-- Any delivering characteristic is the recorded current one (holds on runs
whose connect attempts all succeed). -/
def InvDeliver (s : St) : Prop :=
  ∀ c, c ∈ s.act → c ∈ s.notifyL → s.charRef = some c

/-- Every status a `connectBLE` run can end in. -/
def ClickStatuses : List String :=
  ["Connected (notifications on)", "Error / Cancelled", "Connecting…",
   "Requesting device…", "Web Bluetooth unavailable"]

/-- The error carried by a failing outcome. -/
def ConnOutcome.errOf : ConnOutcome → Option BleErr
  | .ok => none
  | .failConnect e => some e
  | .failService e => some e
  | .failChar e => some e
  | .failStartNot e => some e

/-! ### Concrete fixtures for witnesses and counterexamples -/

/-- Peripheral A. -/
def devA : PeripheralRef := { id := "idA", name := some "ESP32-SIREN A" }

/-- Peripheral B. -/
def devB : PeripheralRef := { id := "idB", name := some "ESP32-SIREN B" }

/-- A generic transport error. -/
def errGatt : BleErr := { name := "NetworkError", message := "GATT operation failed" }

/-- A gesture-required security error. -/
def errGesture : BleErr :=
  { name := "SecurityError", message := "requires a user gesture" }

/-- The rejection of a cancelled chooser. -/
def errCancel : BleErr :=
  { name := "NotFoundError", message := "User cancelled the chooser." }

/-- A click whose interactive selection picks `devA` and whose connect
sequences succeed. -/
def envPickA : ClickEnv :=
  { btAvail := true, hasGetDevs := true, getDevsResult := .ok [],
    tier1Out := .ok, tier2Out := .ok, selection := .ok devA, tier3Out := .ok }

/-- A click whose selection picks `devA` but whose connect then fails. -/
def envPickAFail : ClickEnv :=
  { btAvail := true, hasGetDevs := true, getDevsResult := .ok [],
    tier1Out := .ok, tier2Out := .ok, selection := .ok devA,
    tier3Out := .failConnect errGatt }

/-- A click where the in-memory retry fails at service resolution (the old
link survives), the remembered device is not enumerated, and the user then
picks `devB`, which connects. -/
def envStaleAB : ClickEnv :=
  { btAvail := true, hasGetDevs := true, getDevsResult := .ok [],
    tier1Out := .failService errGatt, tier2Out := .ok, selection := .ok devB,
    tier3Out := .ok }

/-- A click with no in-memory device, a remembered `devA` whose silent
reconnect fails, and a cancelled selection. -/
def envT2NoSuppress : ClickEnv :=
  { btAvail := true, hasGetDevs := true, getDevsResult := .ok [devA],
    tier1Out := .ok, tier2Out := .failConnect errGatt,
    selection := .error errCancel, tier3Out := .ok }

/-- A click whose in-memory retry succeeds (selection immaterial). -/
def envReuseA : ClickEnv :=
  { btAvail := true, hasGetDevs := true, getDevsResult := .ok [devA],
    tier1Out := .ok, tier2Out := .ok, selection := .error errCancel,
    tier3Out := .ok }

/-- A mount environment whose platform lacks `getDevices` (the effect only
logs). -/
def autoSkip : AutoEnv :=
  { btAvail := true, hasGetDevs := false, devsResult := .ok [], connOut := .ok }

/-- A mount environment where the remembered `devA` is enumerated but the
silent connect fails gesture-required. -/
def autoGesture : AutoEnv :=
  { btAvail := true, hasGetDevs := true, devsResult := .ok [devA],
    connOut := .failConnect errGesture }

/-- Connected to `devA` after one interactive click. -/
def stConnA : St :=
  runOps [Op.click envPickA] (autoReconnectEffect autoSkip (initSt none))

/-- Connected to `devB` after the stale-listener run: connect A, fail a
re-attempt at resolution, then pick and connect B. -/
def stStale : St :=
  runOps [Op.click envPickA, Op.click envStaleAB]
    (autoReconnectEffect autoSkip (initSt none))

/-- One user click on a fresh session with a persisted identifier: the tier-2
attempt runs unsuppressed and fails, the selection is cancelled. -/
def stNoSup : St :=
  runOps [Op.click envT2NoSuppress] (autoReconnectEffect autoSkip (initSt (some "idA")))

/-- The mount effect ended waiting for a user gesture with `devA` retained. -/
def stGesture : St := autoReconnectEffect autoGesture (initSt (some "idA"))

/-! ## Helper lemmas -/

theorem register_discL {s : St} (hD : InvDisc s) (d : PeripheralRef) :
    (registerDisconnectHandler d s).discL = [(d.id, s.nextG)] := by
  rcases hD with ⟨h1, h2⟩ | ⟨r, g, hr, hg, hl⟩
  · unfold registerDisconnectHandler
    cases hdev : s.deviceRef <;> simp [h1, h2, hdev]
  · unfold registerDisconnectHandler
    simp [hr, hg, hl]

theorem register_InvDisc {s : St} (hD : InvDisc s) (d : PeripheralRef) :
    InvDisc (registerDisconnectHandler d s) :=
  Or.inr ⟨d, s.nextG, rfl, rfl, register_discL hD d⟩

/-- The fields of `connectToDevice`'s result that do not depend on the
outcome: the disconnect observer is re-registered on the target (before the
try), storage and the counters are untouched, and the ghost attempt record
grows by this invocation. -/
theorem ctd_fields (d : PeripheralRef) (sup : Bool) (o : ConnOutcome) (s : St) :
    (connectToDevice d sup o s).1.deviceRef = some d ∧
    (connectToDevice d sup o s).1.dhRef = some s.nextG ∧
    (connectToDevice d sup o s).1.discL = (registerDisconnectHandler d s).discL ∧
    (connectToDevice d sup o s).1.storage = s.storage ∧
    (connectToDevice d sup o s).1.getDevCalls = s.getDevCalls ∧
    (connectToDevice d sup o s).1.storeWrites = s.storeWrites ∧
    (connectToDevice d sup o s).1.autoDone = s.autoDone ∧
    (connectToDevice d sup o s).1.attempts = s.attempts ++ [(d.id, sup)] := by
  cases o <;> cases sup <;> exact ⟨rfl, rfl, rfl, rfl, rfl, rfl, rfl, rfl⟩

/-- On a fully successful outcome: subscription recorded, handler set,
notifications active on the target, listener installed (after the
conditional removal of the previous one). -/
theorem ctd_ok_char (d : PeripheralRef) (sup : Bool) (s : St) :
    (connectToDevice d sup .ok s).1.charRef = some d.id ∧
    (connectToDevice d sup .ok s).1.notifyHandler = true ∧
    (connectToDevice d sup .ok s).1.act = s.act.insert d.id ∧
    (connectToDevice d sup .ok s).1.notifyL =
      (match s.charRef, s.notifyHandler with
       | some c0, true => s.notifyL.erase c0
       | _, _ => s.notifyL).insert d.id := by
  cases sup <;> exact ⟨rfl, rfl, rfl, rfl⟩

/-- A rejected `gatt.connect()`: slot cleared, listeners untouched, the
target's notifications are dead. -/
theorem ctd_failConnect_char (d : PeripheralRef) (sup : Bool) (e : BleErr) (s : St) :
    (connectToDevice d sup (.failConnect e) s).1.charRef = none ∧
    (connectToDevice d sup (.failConnect e) s).1.notifyHandler = s.notifyHandler ∧
    (connectToDevice d sup (.failConnect e) s).1.act = s.act.erase d.id ∧
    (connectToDevice d sup (.failConnect e) s).1.notifyL = s.notifyL := by
  cases sup <;> exact ⟨rfl, rfl, rfl, rfl⟩

/-- A failed `getPrimaryService`: slot cleared, nothing else touched (any
previously standing link keeps notifying). -/
theorem ctd_failService_char (d : PeripheralRef) (sup : Bool) (e : BleErr) (s : St) :
    (connectToDevice d sup (.failService e) s).1.charRef = none ∧
    (connectToDevice d sup (.failService e) s).1.notifyHandler = s.notifyHandler ∧
    (connectToDevice d sup (.failService e) s).1.act = s.act ∧
    (connectToDevice d sup (.failService e) s).1.notifyL = s.notifyL := by
  cases sup <;> exact ⟨rfl, rfl, rfl, rfl⟩

/-- A failed `getCharacteristic`: as for a failed service resolution. -/
theorem ctd_failChar_char (d : PeripheralRef) (sup : Bool) (e : BleErr) (s : St) :
    (connectToDevice d sup (.failChar e) s).1.charRef = none ∧
    (connectToDevice d sup (.failChar e) s).1.notifyHandler = s.notifyHandler ∧
    (connectToDevice d sup (.failChar e) s).1.act = s.act ∧
    (connectToDevice d sup (.failChar e) s).1.notifyL = s.notifyL := by
  cases sup <;> exact ⟨rfl, rfl, rfl, rfl⟩

/-- A failed `startNotifications`: the removal of the previous listener has
already happened and the handler is recorded, but the catch clears the slot. -/
theorem ctd_failStartNot_char (d : PeripheralRef) (sup : Bool) (e : BleErr) (s : St) :
    (connectToDevice d sup (.failStartNot e) s).1.charRef = none ∧
    (connectToDevice d sup (.failStartNot e) s).1.notifyHandler = true ∧
    (connectToDevice d sup (.failStartNot e) s).1.act = s.act ∧
    (connectToDevice d sup (.failStartNot e) s).1.notifyL =
      (match s.charRef, s.notifyHandler with
       | some c0, true => s.notifyL.erase c0
       | _, _ => s.notifyL) := by
  cases sup <;> exact ⟨rfl, rfl, rfl, rfl⟩

/-- The status `connectToDevice` ends in, by outcome and suppression flag. -/
theorem ctd_status (d : PeripheralRef) (sup : Bool) (o : ConnOutcome) (s : St) :
    (connectToDevice d sup o s).1.status =
      if o = .ok then "Connected (notifications on)"
      else if sup then "Connecting…" else "Error / Cancelled" := by
  cases o <;> cases sup <;> rfl

/-- The value `connectToDevice` hands its caller, by outcome: always an
ordinary return (`Except.ok`), never an escaping exception. -/
theorem ctd_result (d : PeripheralRef) (sup : Bool) (o : ConnOutcome) (s : St) :
    (connectToDevice d sup o s).2 =
      match o with
      | .ok => Except.ok ConnRes.ok
      | .failConnect e => Except.ok (ConnRes.failed e)
      | .failService e => Except.ok (ConnRes.failed e)
      | .failChar e => Except.ok (ConnRes.failed e)
      | .failStartNot e => Except.ok (ConnRes.failed e) := by
  cases o <;> rfl

/-- The conditional removal step of `setupNotifications` preserves
duplicate-freeness of the listener list. -/
theorem setupRemoval_nodup {s : St} (hn : s.notifyL.Nodup) :
    (match s.charRef, s.notifyHandler with
     | some c0, true => s.notifyL.erase c0
     | _, _ => s.notifyL).Nodup := by
  cases hcr : s.charRef <;> cases hh : s.notifyHandler <;> simp [hn, List.Nodup.erase _ hn]

/-- Lemma: `connectToDevice` preserves the state invariant, for every outcome,
whenever the persisted identifier matches the target (true at all four call
sites). -/
theorem connectToDevice_inv {s : St} {d : PeripheralRef} {b : Bool}
    {o : ConnOutcome} (hD : InvDisc s) (hN : InvNodup s)
    (hS : s.storage = some d.id) : Inv (connectToDevice d b o s).1 := by
  obtain ⟨hn1, hn2⟩ := hN
  obtain ⟨f1, f2, f3, f4, f5, f6, f7, f8⟩ := ctd_fields d b o s
  have hdiscL : (connectToDevice d b o s).1.discL = [(d.id, s.nextG)] :=
    f3.trans (register_discL hD d)
  refine ⟨Or.inr ⟨d, s.nextG, f1, f2, hdiscL⟩, ?_, ?_, ?_⟩
  · intro r hr
    rw [f1] at hr
    cases hr
    rw [f4, hS]
  · cases o with
    | ok =>
      obtain ⟨c1, c2, _, _⟩ := ctd_ok_char d b s
      intro c hc
      rw [c1] at hc
      cases hc
      exact ⟨⟨d, f1, rfl⟩, c2⟩
    | failConnect e =>
      intro c hc
      rw [(ctd_failConnect_char d b e s).1] at hc
      cases hc
    | failService e =>
      intro c hc
      rw [(ctd_failService_char d b e s).1] at hc
      cases hc
    | failChar e =>
      intro c hc
      rw [(ctd_failChar_char d b e s).1] at hc
      cases hc
    | failStartNot e =>
      intro c hc
      rw [(ctd_failStartNot_char d b e s).1] at hc
      cases hc
  · cases o with
    | ok =>
      obtain ⟨_, _, c3, c4⟩ := ctd_ok_char d b s
      exact ⟨c4 ▸ List.Nodup.insert (setupRemoval_nodup hn1),
             c3 ▸ List.Nodup.insert hn2⟩
    | failConnect e =>
      obtain ⟨_, _, c3, c4⟩ := ctd_failConnect_char d b e s
      exact ⟨c4 ▸ hn1, c3 ▸ List.Nodup.erase _ hn2⟩
    | failService e =>
      obtain ⟨_, _, c3, c4⟩ := ctd_failService_char d b e s
      exact ⟨c4 ▸ hn1, c3 ▸ hn2⟩
    | failChar e =>
      obtain ⟨_, _, c3, c4⟩ := ctd_failChar_char d b e s
      exact ⟨c4 ▸ hn1, c3 ▸ hn2⟩
    | failStartNot e =>
      obtain ⟨_, _, c3, c4⟩ := ctd_failStartNot_char d b e s
      exact ⟨c4 ▸ setupRemoval_nodup hn1, c3 ▸ hn2⟩

/-- Any failed outcome leaves the subscription slot cleared. -/
theorem ctd_failed_charRef {d : PeripheralRef} {sup : Bool} {o : ConnOutcome}
    {s : St} {e : BleErr}
    (hres : (connectToDevice d sup o s).2 = .ok (.failed e)) :
    (connectToDevice d sup o s).1.charRef = none := by
  cases o with
  | ok => rw [ctd_result] at hres; cases hres
  | failConnect e' => exact (ctd_failConnect_char d sup e' s).1
  | failService e' => exact (ctd_failService_char d sup e' s).1
  | failChar e' => exact (ctd_failChar_char d sup e' s).1
  | failStartNot e' => exact (ctd_failStartNot_char d sup e' s).1

/-- A successful return forces the successful outcome. -/
theorem ctd_ok_outcome {d : PeripheralRef} {sup : Bool} {o : ConnOutcome} {s : St}
    (hres : (connectToDevice d sup o s).2 = .ok .ok) : o = .ok := by
  cases o <;> first
    | rfl
    | (rw [ctd_result] at hres; cases hres)

/-- Transferring the found device of tier 2 into the device slot keeps the
invariant: by `InvStore` and the `find?` condition it carries the same id as
the previously recorded device, so the disconnect-listener bookkeeping still
matches. -/
theorem deviceSwap_inv {s : St} {saved : PeripheralRef} {rid : String}
    (h : Inv s) (hst : s.storage = some rid) (hid : saved.id = rid) :
    Inv { s with deviceRef := some saved } := by
  obtain ⟨hD, hS, hC, hN⟩ := h
  refine ⟨?_, ?_, ?_, hN⟩
  · rcases hD with ⟨h1, h2⟩ | ⟨r, g, hr, hg, hl⟩
    · exact Or.inl ⟨h1, h2⟩
    · have hsr : s.storage = some r.id := hS r hr
      rw [hst] at hsr
      cases hsr
      exact Or.inr ⟨saved, g, rfl, hg, by rw [hl, hid]⟩
  · intro r hr
    cases hr
    rw [hst, hid]
  · intro c hc
    obtain ⟨⟨r, hr, hrid⟩, hh⟩ := hC c hc
    have hsr : s.storage = some r.id := hS r hr
    rw [hst] at hsr
    cases hsr
    exact ⟨⟨saved, rfl, by rw [hid, hrid]⟩, hh⟩

/-- Lemma: `requestDeviceAndConnect` preserves the state invariant. -/
theorem requestDeviceAndConnect_inv {s : St} {env : ClickEnv} (h : Inv s) :
    Inv (requestDeviceAndConnect env s).1 := by
  unfold requestDeviceAndConnect
  split
  · exact h
  · split
    · exact h
    next dev hsel =>
      have hinv := connectToDevice_inv (d := dev) (b := false) (o := env.tier3Out)
        (s := push ("Saved device id " ++ dev.id ++ " for auto reconnect")
          (persistId dev (setStatus "Requesting device…" s))) h.1 h.2.2.2 rfl
      split <;> (rename_i heq; rw [heq] at hinv; exact hinv)

/-- Tier 2 of a user click preserves the state invariant. -/
theorem quickReconnect_inv {s : St} {env : ClickEnv} (h : Inv s) :
    Inv (quickReconnect env s).1 := by
  unfold quickReconnect
  split
  · exact h
  next rid hst =>
    split
    · dsimp only
      split
      · exact h
      · split
        · exact h
        next saved hfind =>
          have hid : saved.id = rid := by
            have hp := List.find?_some hfind
            simpa using hp
          have h' : Inv (countGetDevices
              (push "Checking saved devices list for quick reconnect." s)) := h
          have hmid : Inv (setDeviceRef saved (countGetDevices
              (push "Checking saved devices list for quick reconnect." s))) :=
            deviceSwap_inv h' hst hid
          have hinv := connectToDevice_inv (d := saved) (b := false)
            (o := env.tier2Out)
            (s := setDeviceRef saved (countGetDevices
              (push "Checking saved devices list for quick reconnect." s)))
            hmid.1 hmid.2.2.2
            (show s.storage = some saved.id by rw [hid]; exact hst)
          split <;> (rename_i heq; rw [heq] at hinv; exact hinv)
    · exact h

/-- Tiers 2 and 3 of a user click preserve the state invariant. -/
theorem connectBLETail_inv {s : St} {env : ClickEnv} (h : Inv s) :
    Inv (connectBLETail env s) := by
  unfold connectBLETail
  split
  next t heq =>
    have hq := @quickReconnect_inv _ env h
    rw [heq] at hq
    exact hq
  next t heq =>
    have hq := @quickReconnect_inv _ env h
    rw [heq] at hq
    exact requestDeviceAndConnect_inv hq

/-- A full user click preserves the state invariant. -/
theorem connectBLE_inv {s : St} {env : ClickEnv} (h : Inv s) :
    Inv (connectBLE env s).1 := by
  unfold connectBLE
  split
  next d hdev =>
    have hstor : s.storage = some d.id := h.2.1 d hdev
    have hinv := connectToDevice_inv (d := d) (b := false) (o := env.tier1Out)
      (s := push "Attempting to reconnect using saved device in memory." s)
      h.1 h.2.2.2 hstor
    dsimp only
    split
    next t heq => rw [heq] at hinv; exact hinv
    next t heq => rw [heq] at hinv; exact connectBLETail_inv hinv
    next t e heq => rw [heq] at hinv; exact hinv
  next hdev => exact connectBLETail_inv h

/-- Re-recording the device already held in the device slot keeps the
invariant. -/
theorem setSameDevice_inv {s : St} {d : PeripheralRef} (h : Inv s)
    (hd : s.deviceRef = some d) : Inv (setDeviceRef d s) := by
  obtain ⟨hD, hS, hC, hN⟩ := h
  refine ⟨?_, ?_, ?_, hN⟩
  · rcases hD with ⟨h1, h2⟩ | ⟨r, g, hr, hg, hl⟩
    · exact Or.inl ⟨h1, h2⟩
    · have hdr : r = d := by
        rw [hd] at hr
        exact (Option.some.inj hr).symm
      exact Or.inr ⟨d, g, rfl, hg, by rw [← hdr]; exact hl⟩
  · intro r hr
    have hdr : d = r := Option.some.inj hr
    exact hdr ▸ hS d hd
  · intro c hc
    obtain ⟨⟨r, hr, hrid⟩, hh⟩ := hC c hc
    have hdr : r = d := by
      rw [hd] at hr
      exact (Option.some.inj hr).symm
    exact ⟨⟨d, rfl, by rw [← hdr]; exact hrid⟩, hh⟩

/-- The automatic startup effect preserves the state invariant. -/
theorem autoReconnectEffect_inv {s : St} {a : AutoEnv} (h : Inv s) :
    Inv (autoReconnectEffect a s) := by
  unfold autoReconnectEffect
  split
  · exact h
  · (try dsimp only)
    split
    · exact h
    · split
      · exact h
      · split
        · exact h
        next rid hst =>
          (try dsimp only)
          split
          · exact h
          next devs hdevs =>
            split
            · exact h
            next saved hfind =>
              have hid : saved.id = rid := by
                have hp := List.find?_some hfind
                simpa using hp
              have hinv := connectToDevice_inv (d := saved) (b := true)
                (o := a.connOut)
                (s := push ("Found saved device " ++ saved.display ++ ". Reconnecting…")
                  (countGetDevices (push "Attempting automatic reconnect…"
                    (setStatus "Checking saved devices…" (markAutoDone s)))))
                h.1 h.2.2.2
                (show s.storage = some saved.id by rw [hid]; exact hst)
              split
              next t heq => rw [heq] at hinv; exact hinv
              next t e heq =>
                rw [heq] at hinv
                split
                · have hd : t.deviceRef = some saved := by
                    have hf := (ctd_fields saved true a.connOut
                      (push ("Found saved device " ++ saved.display ++ ". Reconnecting…")
                        (countGetDevices (push "Attempting automatic reconnect…"
                          (setStatus "Checking saved devices…" (markAutoDone s)))))).1
                    rw [heq] at hf
                    exact hf
                  exact setSameDevice_inv hinv hd
                · exact hinv
              next t e heq => rw [heq] at hinv; exact hinv

/-- The disconnect closure fold touches only status, log, clock and the
subscription slot. -/
theorem discFold_fields (l : List (String × Nat)) (s : St) :
    (l.foldl (fun t _ => gattDisconnectBody t) s).deviceRef = s.deviceRef ∧
    (l.foldl (fun t _ => gattDisconnectBody t) s).dhRef = s.dhRef ∧
    (l.foldl (fun t _ => gattDisconnectBody t) s).discL = s.discL ∧
    (l.foldl (fun t _ => gattDisconnectBody t) s).notifyL = s.notifyL ∧
    (l.foldl (fun t _ => gattDisconnectBody t) s).act = s.act ∧
    (l.foldl (fun t _ => gattDisconnectBody t) s).storage = s.storage ∧
    (l.foldl (fun t _ => gattDisconnectBody t) s).notifyHandler = s.notifyHandler ∧
    (l.foldl (fun t _ => gattDisconnectBody t) s).getDevCalls = s.getDevCalls ∧
    (l.foldl (fun t _ => gattDisconnectBody t) s).storeWrites = s.storeWrites ∧
    (l.foldl (fun t _ => gattDisconnectBody t) s).attempts = s.attempts ∧
    (l.foldl (fun t _ => gattDisconnectBody t) s).autoDone = s.autoDone := by
  induction l generalizing s with
  | nil => exact ⟨rfl, rfl, rfl, rfl, rfl, rfl, rfl, rfl, rfl, rfl, rfl⟩
  | cons p l ih => exact ih (gattDisconnectBody s)

/-- The fold either leaves the subscription slot alone or clears it. -/
theorem discFold_charRef (l : List (String × Nat)) (s : St) :
    (l.foldl (fun t _ => gattDisconnectBody t) s).charRef = s.charRef ∨
    (l.foldl (fun t _ => gattDisconnectBody t) s).charRef = none := by
  induction l generalizing s with
  | nil => exact Or.inl rfl
  | cons p l ih =>
    rcases ih (gattDisconnectBody s) with h | h
    · exact Or.inr h
    · exact Or.inr h

/-- When at least one closure runs, the state ends Disconnected with the
subscription slot cleared. -/
theorem discFold_cons (p : String × Nat) (l : List (String × Nat)) (s : St) :
    ((p :: l).foldl (fun t _ => gattDisconnectBody t) s).status = "Disconnected" ∧
    ((p :: l).foldl (fun t _ => gattDisconnectBody t) s).charRef = none := by
  induction l generalizing p s with
  | nil => exact ⟨rfl, rfl⟩
  | cons q l ih => exact ih q (gattDisconnectBody s)

/-- A disconnect event preserves the state invariant. -/
theorem fireDisconnect_inv {s : St} (h : Inv s) (dId : String) :
    Inv (fireDisconnect dId s) := by
  obtain ⟨hD, hS, hC, hn1, hn2⟩ := h
  unfold fireDisconnect
  dsimp only
  obtain ⟨f1, f2, f3, f4, f5, f6, f7, -⟩ :=
    discFold_fields (({ s with act := s.act.erase dId } : St).discL.filter
      (fun p => p.1 == dId)) { s with act := s.act.erase dId }
  refine ⟨?_, ?_, ?_, ?_, ?_⟩
  · rcases hD with ⟨h1, h2⟩ | ⟨r, g, hr, hg, hl⟩
    · exact Or.inl ⟨f2.trans h1, f3.trans h2⟩
    · exact Or.inr ⟨r, g, f1.trans hr, f2.trans hg, f3.trans hl⟩
  · intro r hr
    rw [f1] at hr
    rw [f6]
    exact hS r hr
  · intro c hc
    rcases discFold_charRef (({ s with act := s.act.erase dId } : St).discL.filter
        (fun p => p.1 == dId)) { s with act := s.act.erase dId } with hcr | hcr
    · rw [hcr] at hc
      obtain ⟨⟨r, hr, hrid⟩, hh⟩ := hC c hc
      exact ⟨⟨r, f1.trans hr, hrid⟩, f7.trans hh⟩
    · rw [hcr] at hc
      cases hc
  · rw [f4]; exact hn1
  · rw [f5]; exact List.Nodup.erase _ hn2

/-- A notification event preserves the state invariant. -/
theorem fireNotification_inv {s : St} (h : Inv s) (dId p : String) :
    Inv (fireNotification dId p s) := by
  unfold fireNotification
  split
  · exact h
  · exact h

/-- Every operation preserves the state invariant. -/
theorem applyOp_inv {s : St} (h : Inv s) (op : Op) : Inv (applyOp op s) := by
  cases op with
  | click env => exact connectBLE_inv h
  | disc d => exact fireDisconnect_inv h d
  | notif d p => exact fireNotification_inv h d p

/-- Operation sequences preserve the state invariant. -/
theorem runOps_inv {s : St} (h : Inv s) (ops : List Op) : Inv (runOps ops s) := by
  induction ops generalizing s with
  | nil => exact h
  | cons op ops ih => exact ih (applyOp_inv h op)

/-- The initial state satisfies the invariant. -/
theorem initSt_inv (store0 : Option String) : Inv (initSt store0) := by
  refine ⟨Or.inl ⟨rfl, rfl⟩, ?_, ?_, List.nodup_nil, List.nodup_nil⟩
  · intro r hr
    cases hr
  · intro c hc
    cases hc

/-- Every reachable state satisfies the invariant. -/
theorem reachable_inv {s : St} (h : Reachable s) : Inv s := by
  obtain ⟨store0, a, ops, rfl⟩ := h
  exact runOps_inv (autoReconnectEffect_inv (initSt_inv store0)) ops

/-- A fully successful connect rebinds the subscription so that only the new
characteristic is both registered and active. -/
theorem ctd_ok_deliver {s : St} {d : PeripheralRef} {b : Bool}
    (hC : InvChar s) (hN : InvNodup s) (hDel : InvDeliver s) :
    InvDeliver (connectToDevice d b .ok s).1 := by
  obtain ⟨c1, c2, c3, c4⟩ := ctd_ok_char d b s
  intro c hca hcl
  rw [c3] at hca
  rw [c4] at hcl
  rw [c1]
  rcases List.mem_insert_iff.1 hca with hcd | hca'
  · rw [hcd]
  rcases List.mem_insert_iff.1 hcl with hcd | hcl'
  · rw [hcd]
  exfalso
  revert hcl'
  cases hcr : s.charRef with
  | none =>
    intro hcl'
    have := hDel c hca' hcl'
    rw [hcr] at this
    cases this
  | some c0 =>
    cases hh : s.notifyHandler with
    | true =>
      intro hcl'
      obtain ⟨hne, hmem⟩ := (List.Nodup.mem_erase_iff hN.1).1 hcl'
      have := hDel c hca' hmem
      rw [hcr] at this
      exact hne (Option.some.inj this).symm
    | false =>
      intro hcl'
      exact Bool.false_ne_true ((hh.symm).trans (hC c0 hcr).2)

/-- A disconnect event preserves the delivery invariant: by `InvDisc` the
only closure that can run belongs to the current device, whose characteristic
is exactly the recorded subscription. -/
theorem fireDisconnect_deliver {s : St} (hI : Inv s) (hDel : InvDeliver s)
    (dId : String) : InvDeliver (fireDisconnect dId s) := by
  obtain ⟨hD, hS, hC, hn1, hn2⟩ := hI
  unfold fireDisconnect
  (try dsimp only)
  obtain ⟨f1, f2, f3, f4, f5, -⟩ :=
    discFold_fields (({ s with act := s.act.erase dId } : St).discL.filter
      (fun p => p.1 == dId)) { s with act := s.act.erase dId }
  intro c hca hcl
  rw [f5] at hca
  rw [f4] at hcl
  have hmem : c ∈ s.act := List.mem_of_mem_erase hca
  have hcur : s.charRef = some c := hDel c hmem hcl
  cases hfil : (({ s with act := s.act.erase dId } : St).discL.filter
      (fun p => p.1 == dId)) with
  | nil => exact hcur
  | cons p l =>
    exfalso
    have hp : p ∈ ({ s with act := s.act.erase dId } : St).discL.filter
        (fun p => p.1 == dId) := by
      rw [hfil]
      exact List.mem_cons_self p l
    obtain ⟨hpd, hpb⟩ := List.mem_filter.1 hp
    have hpid : p.1 = dId := by simpa using hpb
    rcases hD with ⟨h1, h2⟩ | ⟨r, g, hr, hg, hl⟩
    · rw [h2] at hpd
      cases hpd
    · rw [hl] at hpd
      have hpr : p = (r.id, g) := by simpa using hpd
      obtain ⟨⟨r', hr', hrid⟩, -⟩ := hC c hcur
      rw [hr] at hr'
      have : r = r' := Option.some.inj hr'
      have hcd : c = dId := by
        rw [← hrid, ← this, ← hpid, hpr]
      have := (List.Nodup.mem_erase_iff hn2).1 hca
      exact this.1 hcd

/-- A notification event preserves the delivery invariant (it only logs). -/
theorem fireNotification_deliver {s : St} (hDel : InvDeliver s) (dId p : String) :
    InvDeliver (fireNotification dId p s) := by
  unfold fireNotification
  split
  · exact hDel
  · exact hDel

/-- Tier 3 with a succeeding connect preserves the delivery invariant. -/
theorem requestDeviceAndConnect_ok_deliver {s : St} {env : ClickEnv}
    (hI : Inv s) (hDel : InvDeliver s) (hok : env.tier3Out = ConnOutcome.ok) :
    InvDeliver (requestDeviceAndConnect env s).1 := by
  unfold requestDeviceAndConnect
  split
  · exact hDel
  · split
    · exact hDel
    next dev hsel =>
      have hdel' := ctd_ok_deliver (d := dev) (b := false)
        (s := push ("Saved device id " ++ dev.id ++ " for auto reconnect")
          (persistId dev (setStatus "Requesting device…" s)))
        hI.2.2.1 hI.2.2.2 hDel
      rw [← hok] at hdel'
      split <;> (rename_i heq; rw [heq] at hdel'; exact hdel')

/-- Tier 2 with a succeeding connect preserves the delivery invariant. -/
theorem quickReconnect_ok_deliver {s : St} {env : ClickEnv}
    (hI : Inv s) (hDel : InvDeliver s) (hok : env.tier2Out = ConnOutcome.ok) :
    InvDeliver (quickReconnect env s).1 := by
  unfold quickReconnect
  split
  · exact hDel
  next rid hst =>
    split
    · (try dsimp only)
      split
      · exact hDel
      · split
        · exact hDel
        next saved hfind =>
          have hid : saved.id = rid := by
            have hp := List.find?_some hfind
            simpa using hp
          have h' : Inv (countGetDevices
              (push "Checking saved devices list for quick reconnect." s)) := hI
          have hmid : Inv (setDeviceRef saved (countGetDevices
              (push "Checking saved devices list for quick reconnect." s))) :=
            deviceSwap_inv h' hst hid
          have hdel' := ctd_ok_deliver (d := saved) (b := false)
            (s := setDeviceRef saved (countGetDevices
              (push "Checking saved devices list for quick reconnect." s)))
            hmid.2.2.1 hmid.2.2.2 hDel
          rw [← hok] at hdel'
          split <;> (rename_i heq; rw [heq] at hdel'; exact hdel')
    · exact hDel

/-- Tiers 2-3 with succeeding connects preserve the delivery invariant. -/
theorem connectBLETail_ok_deliver {s : St} {env : ClickEnv}
    (hI : Inv s) (hDel : InvDeliver s) (hok2 : env.tier2Out = ConnOutcome.ok)
    (hok3 : env.tier3Out = ConnOutcome.ok) :
    InvDeliver (connectBLETail env s) := by
  unfold connectBLETail
  split
  next t heq =>
    have hq := quickReconnect_ok_deliver hI hDel hok2
    rw [heq] at hq
    exact hq
  next t heq =>
    have hq := quickReconnect_ok_deliver hI hDel hok2
    have hqi := @quickReconnect_inv _ env hI
    rw [heq] at hq hqi
    exact requestDeviceAndConnect_ok_deliver hqi hq hok3

/-- A user click whose connect attempts all succeed preserves the delivery
invariant. -/
theorem connectBLE_ok_deliver {s : St} {env : ClickEnv}
    (hI : Inv s) (hDel : InvDeliver s) (hok : env.okEnv) :
    InvDeliver (connectBLE env s).1 := by
  obtain ⟨hok1, hok2, hok3⟩ := hok
  unfold connectBLE
  split
  next d hdev =>
    have hdel' := ctd_ok_deliver (d := d) (b := false)
      (s := push "Attempting to reconnect using saved device in memory." s)
      hI.2.2.1 hI.2.2.2 hDel
    rw [← hok1] at hdel'
    have hstor : s.storage = some d.id := hI.2.1 d hdev
    have hinv := connectToDevice_inv (d := d) (b := false) (o := env.tier1Out)
      (s := push "Attempting to reconnect using saved device in memory." s)
      hI.1 hI.2.2.2 hstor
    (try dsimp only)
    split
    next t heq => rw [heq] at hdel'; exact hdel'
    next t heq =>
      rw [heq] at hdel' hinv
      exact connectBLETail_ok_deliver hinv hdel' hok2 hok3
    next t e heq => rw [heq] at hdel'; exact hdel'
  next hdev => exact connectBLETail_ok_deliver hI hDel hok2 hok3

/-- The startup effect with a succeeding connect preserves the delivery
invariant. -/
theorem autoReconnectEffect_ok_deliver {s : St} {a : AutoEnv}
    (hI : Inv s) (hDel : InvDeliver s) (hok : a.connOut = ConnOutcome.ok) :
    InvDeliver (autoReconnectEffect a s) := by
  unfold autoReconnectEffect
  split
  · exact hDel
  · (try dsimp only)
    split
    · exact hDel
    · split
      · exact hDel
      · split
        · exact hDel
        next rid hst =>
          (try dsimp only)
          split
          · exact hDel
          next devs hdevs =>
            split
            · exact hDel
            next saved hfind =>
              have hdel' := ctd_ok_deliver (d := saved) (b := true)
                (s := push ("Found saved device " ++ saved.display ++ ". Reconnecting…")
                  (countGetDevices (push "Attempting automatic reconnect…"
                    (setStatus "Checking saved devices…" (markAutoDone s)))))
                hI.2.2.1 hI.2.2.2 hDel
              rw [← hok] at hdel'
              split
              next t heq => rw [heq] at hdel'; exact hdel'
              next t e heq =>
                rw [heq] at hdel'
                split
                · exact hdel'
                · exact hdel'
              next t e heq => rw [heq] at hdel'; exact hdel'

/-- Operations with succeeding connect attempts preserve invariant and
delivery invariant together. -/
theorem applyOp_ok_deliver {s : St} {op : Op} (hI : Inv s) (hDel : InvDeliver s)
    (hop : OpOk op) : Inv (applyOp op s) ∧ InvDeliver (applyOp op s) := by
  cases op with
  | click env => exact ⟨connectBLE_inv hI, connectBLE_ok_deliver hI hDel hop⟩
  | disc d => exact ⟨fireDisconnect_inv hI d, fireDisconnect_deliver hI hDel d⟩
  | notif d p => exact ⟨fireNotification_inv hI d p, fireNotification_deliver hDel d p⟩

/-- Operation sequences with succeeding connect attempts preserve both
invariants. -/
theorem runOps_ok_deliver {s : St} {ops : List Op} (hI : Inv s)
    (hDel : InvDeliver s) (hops : ∀ o ∈ ops, OpOk o) :
    Inv (runOps ops s) ∧ InvDeliver (runOps ops s) := by
  induction ops generalizing s with
  | nil => exact ⟨hI, hDel⟩
  | cons op ops ih =>
    obtain ⟨h1, h2⟩ := applyOp_ok_deliver hI hDel (hops op (List.mem_cons_self op ops))
    exact ih h1 h2 (fun o ho => hops o (List.mem_cons_of_mem op ho))

/-- Every state reachable through all-successful connect attempts satisfies
the delivery invariant. -/
theorem reachableOk_deliver {s : St} (h : ReachableOk s) :
    Inv s ∧ InvDeliver s := by
  obtain ⟨store0, a, ops, hok, hops, rfl⟩ := h
  have h0 : InvDeliver (initSt store0) := by
    intro c hca hcl
    cases hca
  exact runOps_ok_deliver
    (autoReconnectEffect_inv (initSt_inv store0))
    (autoReconnectEffect_ok_deliver (initSt_inv store0) h0 hok) hops

/-- With the delivery invariant and duplicate-freeness, at most one
characteristic is delivering. -/
theorem delivering_length_le_one {s : St} (hDel : InvDeliver s)
    (hn2 : s.act.Nodup) : (delivering s).length ≤ 1 := by
  have hnd : (delivering s).Nodup := hn2.filter _
  match hdel : delivering s with
  | [] => simp
  | [x] => simp
  | x :: y :: t =>
    exfalso
    have hx : x ∈ delivering s := by rw [hdel]; exact List.mem_cons_self x (y :: t)
    have hy : y ∈ delivering s := by
      rw [hdel]
      exact List.mem_cons_of_mem x (List.mem_cons_self y t)
    obtain ⟨hxa, hxl⟩ := List.mem_filter.1 hx
    obtain ⟨hya, hyl⟩ := List.mem_filter.1 hy
    have hxc : s.charRef = some x := hDel x hxa (by simpa using hxl)
    have hyc : s.charRef = some y := hDel y hya (by simpa using hyl)
    have hxy : x = y := by
      have := hxc.symm.trans hyc
      exact Option.some.inj this
    rw [hdel] at hnd
    exact (List.nodup_cons.1 hnd).1 (hxy ▸ List.mem_cons_self y t)

/-- Any unsuppressed connect attempt ends in a click status. -/
theorem ctd_status_mem (d : PeripheralRef) (o : ConnOutcome) (s : St) :
    (connectToDevice d false o s).1.status ∈ ClickStatuses := by
  rw [ctd_status]
  split
  · decide
  · decide

/-- The status `requestDeviceAndConnect` ends in is always one of the click
statuses. -/
theorem rdac_status (env : ClickEnv) (s : St) :
    (requestDeviceAndConnect env s).1.status ∈ ClickStatuses := by
  unfold requestDeviceAndConnect
  split
  · show "Web Bluetooth unavailable" ∈ ClickStatuses
    decide
  · split
    · show "Requesting device…" ∈ ClickStatuses
      decide
    next dev hsel =>
      have hm := ctd_status_mem dev env.tier3Out
        (push ("Saved device id " ++ dev.id ++ " for auto reconnect")
          (persistId dev (setStatus "Requesting device…" s)))
      split <;> (rename_i heq; rw [heq] at hm; exact hm)

/-- A tier-2 early success ends in the connected status. -/
theorem quickReconnect_true_status {env : ClickEnv} {s t : St}
    (h : quickReconnect env s = (t, true)) :
    t.status = "Connected (notifications on)" := by
  unfold quickReconnect at h
  split at h
  · exact absurd (congrArg Prod.snd h) (by simp)
  next rid hst =>
    split at h
    · (try dsimp only at h)
      split at h
      · exact absurd (congrArg Prod.snd h) (by simp)
      · split at h
        · exact absurd (congrArg Prod.snd h) (by simp)
        next saved hfind =>
          split at h
          · rename_i heq
            injection h with h1 h2
            have hok : env.tier2Out = ConnOutcome.ok := ctd_ok_outcome (by rw [heq])
            have hm := ctd_status saved false env.tier2Out
              (setDeviceRef saved (countGetDevices
                (push "Checking saved devices list for quick reconnect." s)))
            rw [heq, if_pos hok] at hm
            rw [← h1]
            exact hm
          · exact absurd (congrArg Prod.snd h) (by simp)
          · exact absurd (congrArg Prod.snd h) (by simp)
    · exact absurd (congrArg Prod.snd h) (by simp)

/-- The status a tier 2-3 run ends in is always one of the click statuses. -/
theorem connectBLETail_status (env : ClickEnv) (s : St) :
    (connectBLETail env s).status ∈ ClickStatuses := by
  unfold connectBLETail
  split
  · rename_i heq
    rw [quickReconnect_true_status heq]
    decide
  · exact rdac_status env _

/-- The status a user click ends in is always one of the click statuses;
in particular a click never ends in status Disconnected. -/
theorem connectBLE_status (env : ClickEnv) (s : St) :
    (connectBLE env s).1.status ∈ ClickStatuses := by
  unfold connectBLE
  split
  next d hdev =>
    have hm := ctd_status_mem d env.tier1Out
      (push "Attempting to reconnect using saved device in memory." s)
    (try dsimp only)
    split
    · rename_i heq
      rw [heq] at hm
      exact hm
    · exact connectBLETail_status env _
    · rename_i heq
      rw [heq] at hm
      exact hm
  next hdev => exact connectBLETail_status env _

/-- A notification event never changes the status. -/
theorem fireNotification_status (dId p : String) (s : St) :
    (fireNotification dId p s).status = s.status := by
  unfold fireNotification
  split <;> rfl

/-- Full case analysis of a disconnect event: either no closure is registered
on the device and only the transport-side activity changes, or at least one
closure runs: status Disconnected, subscription slot cleared, while the
device slot and the notification-listener registrations are untouched. -/
theorem fireDisconnect_cases (dId : String) (s : St) :
    (s.discL.filter (fun p => p.1 == dId) = [] ∧
      fireDisconnect dId s = { s with act := s.act.erase dId }) ∨
    (s.discL.filter (fun p => p.1 == dId) ≠ [] ∧
      (fireDisconnect dId s).status = "Disconnected" ∧
      (fireDisconnect dId s).charRef = none ∧
      (fireDisconnect dId s).deviceRef = s.deviceRef ∧
      (fireDisconnect dId s).notifyL = s.notifyL ∧
      (fireDisconnect dId s).act = s.act.erase dId) := by
  unfold fireDisconnect
  (try dsimp only)
  cases hfil : (({ s with act := s.act.erase dId } : St).discL.filter
      (fun p => p.1 == dId)) with
  | nil => exact Or.inl ⟨rfl, rfl⟩
  | cons p l =>
    right
    obtain ⟨f1, f2, f3, f4, f5, -⟩ :=
      discFold_fields (p :: l) { s with act := s.act.erase dId }
    exact ⟨List.cons_ne_nil p l, (discFold_cons p l _).1, (discFold_cons p l _).2,
      f1, f4, f5⟩

/-- A registered closure on a device makes that device's filter nonempty. -/
theorem filter_disc_ne_nil {s : St} {dId : String} {g : Nat}
    (h : (dId, g) ∈ s.discL) :
    s.discL.filter (fun p => p.1 == dId) ≠ [] := by
  intro hnil
  have hmem : (dId, g) ∈ s.discL.filter (fun p => p.1 == dId) :=
    List.mem_filter.2 ⟨h, by simp⟩
  rw [hnil] at hmem
  cases hmem

/-- After the register step of a new attempt on a peripheral, a disconnect
event of any other peripheral finds no closure and leaves the whole session
record unchanged (only the transport-side activity may change). -/
theorem fireDisconnect_stale (s : St) (dNew : PeripheralRef) (dOld : String)
    (hD : InvDisc s) (hne : dOld ≠ dNew.id) :
    session (fireDisconnect dOld (registerDisconnectHandler dNew s)) =
      session (registerDisconnectHandler dNew s) := by
  have hfil : (registerDisconnectHandler dNew s).discL.filter
      (fun p => p.1 == dOld) = [] := by
    rw [register_discL hD]
    simp [Ne.symm hne]
  rcases fireDisconnect_cases dOld (registerDisconnectHandler dNew s) with
    ⟨-, heq⟩ | ⟨hne', -⟩
  · rw [heq]
    rfl
  · exact absurd hfil hne'

/-- Elements past the cap cannot influence a capped prefix. -/
theorem take_append_take (a b : List String) (n : Nat) :
    (a ++ b.take n).take n = (a ++ b).take n := by
  rw [List.take_append_eq_append_take, List.take_append_eq_append_take,
    List.take_take, Nat.min_eq_left (Nat.sub_le n a.length)]

/-- Folding `appendLog` over a history, starting from any capped log, yields
the reversed formatted history appended to it, capped at 100. -/
theorem appendLog_foldl (entries : List (String × String)) (lg : List String)
    (hlg : lg.length ≤ 100) :
    entries.foldl (fun acc e => appendLog e.1 e.2 acc) lg =
      ((entries.map (fun e => e.1 ++ " " ++ e.2)).reverse ++ lg).take 100 := by
  induction entries generalizing lg with
  | nil =>
    simp [List.take_all_of_le hlg]
  | cons e es ih =>
    have h1 : (appendLog e.1 e.2 lg).length ≤ 100 := List.length_take_le _ _
    show es.foldl (fun acc e => appendLog e.1 e.2 acc) (appendLog e.1 e.2 lg) = _
    rw [ih (appendLog e.1 e.2 lg) h1]
    calc ((es.map (fun e => e.1 ++ " " ++ e.2)).reverse ++
            ((e.1 ++ " " ++ e.2) :: lg).take 100).take 100
        = ((es.map (fun e => e.1 ++ " " ++ e.2)).reverse ++
            ((e.1 ++ " " ++ e.2) :: lg)).take 100 := take_append_take _ _ 100
      _ = (((e :: es).map (fun e => e.1 ++ " " ++ e.2)).reverse ++ lg).take 100 := by
          simp

/-! ## Claims -/

/-- C10: For every sequence of append calls, the visible log holds at most
100 entries, ordered newest first, and each entry is the appended message
prefixed with a timestamp — older entries beyond 100 are silently
discarded.  (The log produced by folding the append of lines 19-21 over any
history equals the reversed formatted history truncated to 100.) -/
theorem C10_append_cap (entries : List (String × String)) :
    entries.foldl (fun acc e => appendLog e.1 e.2 acc) [] =
      ((entries.map (fun e => e.1 ++ " " ++ e.2)).reverse).take 100 ∧
    (entries.foldl (fun acc e => appendLog e.1 e.2 acc) []).length ≤ 100 := by
  have h := appendLog_foldl entries [] (by simp)
  constructor
  · simpa using h
  · rw [h]
    exact List.length_take_le _ _

/-- C2: For every device, every options value, every transport outcome and
every starting state, `connectToDevice` returns an ordinary tagged result to
its caller — `Except.ok` with `ConnRes.ok` exactly on the fully successful
outcome — and never lets an exception escape past its catch. -/
theorem C2_no_throw (d : PeripheralRef) (sup : Bool) (o : ConnOutcome) (s : St) :
    ∃ r : ConnRes, (connectToDevice d sup o s).2 = Except.ok r ∧
      (r = ConnRes.ok ↔ o = ConnOutcome.ok) := by
  cases o with
  | ok => exact ⟨ConnRes.ok, rfl, by simp⟩
  | failConnect e => exact ⟨ConnRes.failed e, rfl, by simp⟩
  | failService e => exact ⟨ConnRes.failed e, rfl, by simp⟩
  | failChar e => exact ⟨ConnRes.failed e, rfl, by simp⟩
  | failStartNot e => exact ⟨ConnRes.failed e, rfl, by simp⟩

/-- C3 counterexample: after a failed connect attempt the device slot is NOT
cleared — `deviceRef` still holds the attempted device — refuting the claim
that the failure branch clears both the device slot and the characteristic
slot. -/
theorem C3_cex :
    (connectToDevice devA false (ConnOutcome.failConnect errGatt)
      (initSt none)).1.deviceRef = some devA ∧
    (connectToDevice devA false (ConnOutcome.failConnect errGatt)
      (initSt none)).1.deviceRef ≠ none := by
  constructor
  · decide
  · decide

/-- C3 amended: whenever a step of the attempt fails, the failure branch
clears the characteristic slot but RETAINS the device slot (it points at the
attempted device); the status becomes the failure state exactly when
`suppressErrorStatus` is false, and with suppression the failure branch
leaves the status as the attempt set it ("Connecting…"). -/
theorem C3_amended (d : PeripheralRef) (sup : Bool) (o : ConnOutcome) (s : St)
    (ho : o ≠ ConnOutcome.ok) :
    (connectToDevice d sup o s).1.charRef = none ∧
    (connectToDevice d sup o s).1.deviceRef = some d ∧
    (sup = false → (connectToDevice d sup o s).1.status = "Error / Cancelled") ∧
    (sup = true → (connectToDevice d sup o s).1.status = "Connecting…") := by
  refine ⟨?_, (ctd_fields d sup o s).1, ?_, ?_⟩
  · cases o with
    | ok => exact absurd rfl ho
    | failConnect e => exact (ctd_failConnect_char d sup e s).1
    | failService e => exact (ctd_failService_char d sup e s).1
    | failChar e => exact (ctd_failChar_char d sup e s).1
    | failStartNot e => exact (ctd_failStartNot_char d sup e s).1
  · intro hsup
    rw [ctd_status, if_neg ho, hsup]
    rfl
  · intro hsup
    rw [ctd_status, if_neg ho, hsup]
    rfl

/-- Witness for the amended C3 at a concrete failing input. -/
theorem C3_amended_witness :
    (connectToDevice devA false (ConnOutcome.failService errGatt)
      (initSt none)).1.charRef = none ∧
    (connectToDevice devA false (ConnOutcome.failService errGatt)
      (initSt none)).1.deviceRef = some devA ∧
    (false = false → (connectToDevice devA false (ConnOutcome.failService errGatt)
      (initSt none)).1.status = "Error / Cancelled") ∧
    (false = true → (connectToDevice devA false (ConnOutcome.failService errGatt)
      (initSt none)).1.status = "Connecting…") :=
  C3_amended devA false (ConnOutcome.failService errGatt) (initSt none) (by decide)

/-- C8: a successful interactive selection persists the peripheral id to the
store strictly before the connect attempt begins: for EVERY tier-3 outcome
(including failures) the store holds the id afterwards, and exactly one
attempt on that id follows. -/
theorem C8_persist_before_connect (env : ClickEnv) (s : St) (dev : PeripheralRef)
    (hb : env.btAvail = true) (hsel : env.selection = Except.ok dev) :
    (requestDeviceAndConnect env s).1.storage = some dev.id ∧
    (requestDeviceAndConnect env s).1.attempts = s.attempts ++ [(dev.id, false)] := by
  unfold requestDeviceAndConnect
  split
  next hcond =>
    rw [hb] at hcond
    simp at hcond
  · split
    next e hsel2 =>
      rw [hsel] at hsel2
      cases hsel2
    next dev2 hsel2 =>
      rw [hsel] at hsel2
      injection hsel2 with hdev2
      subst hdev2
      obtain ⟨f1, f2, f3, f4, f5, f6, f7, f8⟩ := ctd_fields dev false env.tier3Out
        (push ("Saved device id " ++ dev.id ++ " for auto reconnect")
          (persistId dev (setStatus "Requesting device…" s)))
      split <;> (rename_i heq; rw [heq] at f4 f8; exact ⟨f4, f8⟩)

/-- Witness for C8: the selected id is persisted even though the immediately
following connect attempt fails. -/
theorem C8_witness :
    (requestDeviceAndConnect envPickAFail (initSt none)).1.storage = some devA.id ∧
    (requestDeviceAndConnect envPickAFail (initSt none)).1.attempts =
      (initSt none).attempts ++ [(devA.id, false)] :=
  C8_persist_before_connect envPickAFail (initSt none) devA rfl rfl

/-- Tier 2 never writes the durable store. -/
theorem quickReconnect_store (env : ClickEnv) (s : St) :
    (quickReconnect env s).1.storage = s.storage ∧
    (quickReconnect env s).1.storeWrites = s.storeWrites := by
  unfold quickReconnect
  split
  · exact ⟨rfl, rfl⟩
  next rid hst =>
    split
    · (try dsimp only)
      split
      · exact ⟨rfl, rfl⟩
      · split
        · exact ⟨rfl, rfl⟩
        next saved hfind =>
          obtain ⟨-, -, -, f4, -, f6, -, -⟩ := ctd_fields saved false env.tier2Out
            (setDeviceRef saved (countGetDevices
              (push "Checking saved devices list for quick reconnect." s)))
          split <;> (rename_i heq; rw [heq] at f4 f6; exact ⟨f4, f6⟩)
    · exact ⟨rfl, rfl⟩

/-- With a cancelled selection, tier 3 never writes the durable store. -/
theorem rdac_cancel_store (env : ClickEnv) (s : St) (e : BleErr)
    (hsel : env.selection = Except.error e) :
    (requestDeviceAndConnect env s).1.storage = s.storage ∧
    (requestDeviceAndConnect env s).1.storeWrites = s.storeWrites := by
  unfold requestDeviceAndConnect
  split
  · exact ⟨rfl, rfl⟩
  · split
    · exact ⟨rfl, rfl⟩
    next dev hsel2 =>
      rw [hsel] at hsel2
      cases hsel2

/-- With a cancelled selection, tiers 2-3 never write the durable store. -/
theorem connectBLETail_cancel_store (env : ClickEnv) (s : St) (e : BleErr)
    (hsel : env.selection = Except.error e) :
    (connectBLETail env s).storage = s.storage ∧
    (connectBLETail env s).storeWrites = s.storeWrites := by
  unfold connectBLETail
  split
  · rename_i heq
    have hq := quickReconnect_store env s
    rw [heq] at hq
    exact hq
  · rename_i heq
    have hq := quickReconnect_store env s
    rw [heq] at hq
    exact ⟨(rdac_cancel_store env _ e hsel).1.trans hq.1,
           (rdac_cancel_store env _ e hsel).2.trans hq.2⟩

/-- C9: if the interactive selection is cancelled (the request rejects), the
remembered identifier is left exactly as it was and no store write happens
anywhere in the run. -/
theorem C9_cancel_store_frame (env : ClickEnv) (s : St) (e : BleErr)
    (hsel : env.selection = Except.error e) :
    (connectBLE env s).1.storage = s.storage ∧
    (connectBLE env s).1.storeWrites = s.storeWrites := by
  unfold connectBLE
  split
  next d hdev =>
    obtain ⟨-, -, -, f4, -, f6, -, -⟩ := ctd_fields d false env.tier1Out
      (push "Attempting to reconnect using saved device in memory." s)
    (try dsimp only)
    split
    · rename_i heq
      rw [heq] at f4 f6
      exact ⟨f4, f6⟩
    · rename_i heq
      rw [heq] at f4 f6
      exact ⟨(connectBLETail_cancel_store env _ e hsel).1.trans f4,
             (connectBLETail_cancel_store env _ e hsel).2.trans f6⟩
    · rename_i heq
      rw [heq] at f4 f6
      exact ⟨f4, f6⟩
  next hdev => exact connectBLETail_cancel_store env s e hsel

/-- Witness for C9 at a concrete cancelled run with a persisted id. -/
theorem C9_witness :
    (connectBLE envT2NoSuppress (autoReconnectEffect autoSkip
      (initSt (some "idA")))).1.storage =
      (autoReconnectEffect autoSkip (initSt (some "idA"))).storage ∧
    (connectBLE envT2NoSuppress (autoReconnectEffect autoSkip
      (initSt (some "idA")))).1.storeWrites =
      (autoReconnectEffect autoSkip (initSt (some "idA"))).storeWrites :=
  C9_cancel_store_frame envT2NoSuppress _ errCancel rfl

/-- C5: once a new connect attempt has (re-)registered the disconnect
observer on its target, a disconnect event of any other peripheral — in
particular the previous generation — mutates none of the session state
(status, device slot, subscription slot, listeners, log, storage). -/
theorem C5_stale_disconnect (s : St) (dNew : PeripheralRef) (dOld : String)
    (hs : Reachable s) (hne : dOld ≠ dNew.id) :
    session (fireDisconnect dOld (registerDisconnectHandler dNew s)) =
      session (registerDisconnectHandler dNew s) :=
  fireDisconnect_stale s dNew dOld (reachable_inv hs).1 hne

/-- Witness for C5: a stale disconnect of peripheral A after a new attempt
on B has started is a no-op on the session. -/
theorem C5_witness :
    session (fireDisconnect "idA" (registerDisconnectHandler devB stConnA)) =
      session (registerDisconnectHandler devB stConnA) :=
  C5_stale_disconnect stConnA devB "idA"
    ⟨none, autoSkip, [Op.click envPickA], rfl⟩ (by decide)

/-- C4 counterexample: the disconnect observer fires after a successful
connection — the status does become Disconnected, but the device slot is NOT
cleared and the notification listener is NOT removed, refuting the claim as
stated. -/
theorem C4_cex :
    stConnA.status = "Connected (notifications on)" ∧
    (fireDisconnect "idA" stConnA).status = "Disconnected" ∧
    (fireDisconnect "idA" stConnA).deviceRef ≠ none ∧
    "idA" ∈ (fireDisconnect "idA" stConnA).notifyL := by
  refine ⟨by decide, by decide, by decide, by decide⟩

/-- C4 amended: when the disconnect observer fires it transitions the
session to Disconnected and clears the characteristic slot, but RETAINS the
device reference and leaves the notification listener registered; and among
the modelled operations it is the only one that moves a Connected session to
status Disconnected. -/
theorem C4_amended :
    (∀ s dId g, (dId, g) ∈ s.discL →
      (fireDisconnect dId s).status = "Disconnected" ∧
      (fireDisconnect dId s).charRef = none ∧
      (fireDisconnect dId s).deviceRef = s.deviceRef ∧
      (fireDisconnect dId s).notifyL = s.notifyL) ∧
    (∀ s op, s.status = "Connected (notifications on)" →
      (applyOp op s).status = "Disconnected" →
      ∃ dId, (∃ g, (dId, g) ∈ s.discL) ∧ op = Op.disc dId) := by
  constructor
  · intro s dId g hmem
    rcases fireDisconnect_cases dId s with ⟨hnil, -⟩ | ⟨-, h1, h2, h3, h4, -⟩
    · exact absurd hnil (filter_disc_ne_nil hmem)
    · exact ⟨h1, h2, h3, h4⟩
  · intro s op hconn hdis
    cases op with
    | click env =>
      exfalso
      have hdis' : (connectBLE env s).1.status = "Disconnected" := hdis
      have hm := connectBLE_status env s
      rw [hdis'] at hm
      exact absurd hm (by decide)
    | disc dId =>
      rcases fireDisconnect_cases dId s with ⟨hnil, heqd⟩ | ⟨hne, h1, -⟩
      · exfalso
        have hdis' : (fireDisconnect dId s).status = "Disconnected" := hdis
        rw [heqd] at hdis'
        have hss : s.status = "Disconnected" := hdis'
        rw [hconn] at hss
        exact absurd hss (by decide)
      · obtain ⟨p, hp⟩ := List.exists_mem_of_ne_nil _ hne
        obtain ⟨hpd, hpb⟩ := List.mem_filter.1 hp
        have hpid : p.1 = dId := by simpa using hpb
        refine ⟨dId, ⟨p.2, ?_⟩, rfl⟩
        rw [← hpid]
        exact hpd
    | notif dId payload =>
      exfalso
      have hdis' : (fireNotification dId payload s).status = "Disconnected" := hdis
      rw [fireNotification_status] at hdis'
      rw [hconn] at hdis'
      exact absurd hdis' (by decide)

/-- Witness for the amended C4 at the concrete connected session. -/
theorem C4_amended_witness :
    ((fireDisconnect "idA" stConnA).status = "Disconnected" ∧
     (fireDisconnect "idA" stConnA).charRef = none ∧
     (fireDisconnect "idA" stConnA).deviceRef = stConnA.deviceRef ∧
     (fireDisconnect "idA" stConnA).notifyL = stConnA.notifyL) ∧
    (∃ dId, (∃ g, (dId, g) ∈ stConnA.discL) ∧ Op.disc "idA" = Op.disc dId) :=
  ⟨C4_amended.1 stConnA "idA" 0 (by decide),
   C4_amended.2 stConnA (Op.disc "idA") (by decide) (by decide)⟩

/-- C1 counterexample: after connecting to A, failing a re-attempt on A at
service resolution (which leaves A's link and subscription standing), and
then connecting to B, TWO characteristics are registered and delivering —
refuting the claim that at most one listener is registered-and-delivering
for every sequence of connect attempts. -/
theorem C1_cex :
    delivering stStale = ["idB", "idA"] ∧ (delivering stStale).length = 2 := by
  refine ⟨by decide, by decide⟩

/-- C1 amended: for every run in which every connect attempt succeeds
(disconnect-then-reconnect cycles included), at most one notification
listener is registered-and-delivering at any time, and it is the listener of
the currently recorded characteristic; a failed mid-resolution attempt can
instead leave a stale listener delivering alongside a fresh one. -/
theorem C1_amended (s : St) (hs : ReachableOk s) :
    (delivering s).length ≤ 1 ∧
    (∀ c, c ∈ delivering s → s.charRef = some c) := by
  obtain ⟨hI, hDel⟩ := reachableOk_deliver hs
  refine ⟨delivering_length_le_one hDel hI.2.2.2.2, ?_⟩
  intro c hc
  obtain ⟨hca, hcl⟩ := List.mem_filter.1 hc
  exact hDel c hca (by simpa using hcl)

/-- Witness for the amended C1 on a concrete all-successful run. -/
theorem C1_amended_witness :
    (delivering stConnA).length ≤ 1 ∧
    (∀ c, c ∈ delivering stConnA → stConnA.charRef = some c) :=
  C1_amended stConnA ⟨none, autoSkip, [Op.click envPickA], rfl,
    by
      intro o ho
      rw [List.mem_singleton] at ho
      subst ho
      exact ⟨rfl, rfl, rfl⟩,
    rfl⟩

/-- A failing return carries the error of the failing outcome. -/
theorem ctd_failed_err {d : PeripheralRef} {sup : Bool} {o : ConnOutcome}
    {s : St} {e : BleErr}
    (hres : (connectToDevice d sup o s).2 = Except.ok (ConnRes.failed e)) :
    o.errOf = some e := by
  cases o with
  | ok =>
    rw [ctd_result] at hres
    cases hres
  | failConnect e' =>
    rw [ctd_result] at hres
    injection hres with h1
    injection h1 with h2
    show some e' = some e
    rw [h2]
  | failService e' =>
    rw [ctd_result] at hres
    injection hres with h1
    injection h1 with h2
    show some e' = some e
    rw [h2]
  | failChar e' =>
    rw [ctd_result] at hres
    injection hres with h1
    injection h1 with h2
    show some e' = some e
    rw [h2]
  | failStartNot e' =>
    rw [ctd_result] at hres
    injection hres with h1
    injection h1 with h2
    show some e' = some e
    rw [h2]

/-- Under the tier-2 conditions of a user click, exactly one attempt on the
found device is issued, with suppression OFF. -/
theorem quickReconnect_attempt (env : ClickEnv) (s : St) (rid : String)
    (devs : List PeripheralRef) (saved : PeripheralRef)
    (hst : s.storage = some rid) (hb : env.btAvail = true)
    (hg : env.hasGetDevs = true) (hdevs : env.getDevsResult = Except.ok devs)
    (hfind : devs.find? (fun d => d.id == rid) = some saved) :
    (quickReconnect env s).1.attempts = s.attempts ++ [(saved.id, false)] := by
  unfold quickReconnect
  split
  next hst2 =>
    rw [hst] at hst2
    cases hst2
  next rid2 hst2 =>
    have hr : rid2 = rid := by
      rw [hst] at hst2
      exact (Option.some.inj hst2).symm
    subst hr
    split
    · (try dsimp only)
      split
      next e hdevs2 =>
        rw [hdevs] at hdevs2
        cases hdevs2
      next devs2 hdevs2 =>
        have hd : devs2 = devs := by
          rw [hdevs] at hdevs2
          exact (Except.ok.inj hdevs2).symm
        subst hd
        split
        next hfind2 =>
          rw [hfind] at hfind2
          cases hfind2
        next saved2 hfind2 =>
          have hsv : saved2 = saved := by
            rw [hfind] at hfind2
            exact (Option.some.inj hfind2).symm
          subst hsv
          have f8 := (ctd_fields saved2 false env.tier2Out
            (setDeviceRef saved2 (countGetDevices
              (push "Checking saved devices list for quick reconnect." s)))).2.2.2.2.2.2.2
          split <;> (rename_i heq; rw [heq] at f8; exact f8)
    next hflag =>
      rw [hb, hg] at hflag
      simp at hflag

/-- Tier 3 adds at most one attempt record. -/
theorem rdac_attempts (env : ClickEnv) (s : St) :
    ∃ rest, (requestDeviceAndConnect env s).1.attempts = s.attempts ++ rest := by
  unfold requestDeviceAndConnect
  split
  · exact ⟨[], (List.append_nil s.attempts).symm⟩
  · split
    · exact ⟨[], (List.append_nil s.attempts).symm⟩
    next dev hsel =>
      have f8 := (ctd_fields dev false env.tier3Out
        (push ("Saved device id " ++ dev.id ++ " for auto reconnect")
          (persistId dev (setStatus "Requesting device…" s)))).2.2.2.2.2.2.2
      refine ⟨[(dev.id, false)], ?_⟩
      split <;> (rename_i heq; rw [heq] at f8; exact f8)

/-- C6 counterexample: a user-triggered run whose tier-2 silent
re-acquisition attempt is issued WITHOUT the failure-state suppression
option (the ghost attempt record of the only attempt in the run carries
suppression = false), refuting the claim that every run's tier-2 attempt
sets it to true. -/
theorem C6_cex :
    stNoSup.attempts = [("idA", false)] ∧ stNoSup.deviceRef = some devA := by
  refine ⟨by decide, by decide⟩

/-- C6 amended: the AUTOMATIC startup run issues its tier-2 attempt with
suppression ON, but a USER-TRIGGERED run issues its tier-2 attempt with
default options, i.e. suppression OFF. -/
theorem C6_amended :
    (∀ s a rid devs saved, s.autoDone = false → a.btAvail = true →
      a.hasGetDevs = true → s.storage = some rid →
      a.devsResult = Except.ok devs →
      devs.find? (fun d => d.id == rid) = some saved →
      (autoReconnectEffect a s).attempts = s.attempts ++ [(saved.id, true)]) ∧
    (∀ s env rid devs saved, s.deviceRef = none → s.storage = some rid →
      env.btAvail = true → env.hasGetDevs = true →
      env.getDevsResult = Except.ok devs →
      devs.find? (fun d => d.id == rid) = some saved →
      ∃ rest, (connectBLE env s).1.attempts =
        s.attempts ++ (saved.id, false) :: rest) := by
  constructor
  · intro s a rid devs saved hdone hb hg hst hdevs hfind
    unfold autoReconnectEffect
    split
    next hcond =>
      rw [hdone] at hcond
      cases hcond
    · (try dsimp only)
      split
      next hcond =>
        rw [hb] at hcond
        simp at hcond
      · split
        next hcond =>
          rw [hg] at hcond
          simp at hcond
        · split
          next hst2 =>
            have hss : s.storage = none := hst2
            rw [hst] at hss
            cases hss
          next rid2 hst2 =>
            have hr : rid2 = rid := by
              have hss : s.storage = some rid2 := hst2
              rw [hst] at hss
              exact (Option.some.inj hss).symm
            subst hr
            (try dsimp only)
            split
            next e hdevs2 =>
              rw [hdevs] at hdevs2
              cases hdevs2
            next devs2 hdevs2 =>
              have hd : devs2 = devs := by
                rw [hdevs] at hdevs2
                exact (Except.ok.inj hdevs2).symm
              subst hd
              split
              next hfind2 =>
                rw [hfind] at hfind2
                cases hfind2
              next saved2 hfind2 =>
                have hsv : saved2 = saved := by
                  rw [hfind] at hfind2
                  exact (Option.some.inj hfind2).symm
                subst hsv
                have f8 := (ctd_fields saved2 true a.connOut
                  (push ("Found saved device " ++ saved2.display ++ ". Reconnecting…")
                    (countGetDevices (push "Attempting automatic reconnect…"
                      (setStatus "Checking saved devices…" (markAutoDone s)))))).2.2.2.2.2.2.2
                split
                next t heq =>
                  rw [heq] at f8
                  exact f8
                next t e heq =>
                  rw [heq] at f8
                  split
                  · exact f8
                  · exact f8
                next t e heq =>
                  rw [heq] at f8
                  exact f8
  · intro s env rid devs saved hdev hst hb hg hdevs hfind
    unfold connectBLE
    split
    next d hdev2 =>
      rw [hdev] at hdev2
      cases hdev2
    next =>
      unfold connectBLETail
      have hq := quickReconnect_attempt env s rid devs saved hst hb hg hdevs hfind
      split
      · rename_i heq
        rw [heq] at hq
        exact ⟨[], hq⟩
      · rename_i heq
        rw [heq] at hq
        obtain ⟨rest, hrest⟩ := rdac_attempts env _
        refine ⟨rest, ?_⟩
        rw [hrest, hq, List.append_assoc]
        rfl

/-- Witness for the amended C6: the auto run's tier-2 attempt is suppressed,
the user run's is not. -/
theorem C6_amended_witness :
    (autoReconnectEffect autoGesture (initSt (some "idA"))).attempts =
      (initSt (some "idA")).attempts ++ [(devA.id, true)] ∧
    (∃ rest, (connectBLE envT2NoSuppress (autoReconnectEffect autoSkip
      (initSt (some "idA")))).1.attempts =
      (autoReconnectEffect autoSkip (initSt (some "idA"))).attempts ++
        (devA.id, false) :: rest) :=
  ⟨C6_amended.1 (initSt (some "idA")) autoGesture "idA" [devA] devA
      rfl rfl rfl rfl rfl (by decide),
   C6_amended.2 (autoReconnectEffect autoSkip (initSt (some "idA")))
      envT2NoSuppress "idA" [devA] devA (by decide) (by decide) rfl rfl rfl
      (by decide)⟩

/-- C7: (a) if the automatic tier-2 attempt fails with a gesture-required
condition (a SecurityError name or a message matching the gesture/activation
pattern), the session ends in the waiting-for-user-gesture status with the
resolved device retained in the device slot; (b) a subsequent explicit
connect whose direct attempt on that retained device succeeds ends Connected
with exactly one attempt on that device and zero further granted-device
enumerations. -/
theorem C7_gesture_then_reuse :
    (∀ s a rid devs saved e, s.autoDone = false → a.btAvail = true →
      a.hasGetDevs = true → s.storage = some rid →
      a.devsResult = Except.ok devs →
      devs.find? (fun d => d.id == rid) = some saved →
      a.connOut.errOf = some e → requiresGesture e = true →
      (autoReconnectEffect a s).status = "Waiting for user action" ∧
      (autoReconnectEffect a s).deviceRef = some saved) ∧
    (∀ s env saved, s.deviceRef = some saved → env.tier1Out = ConnOutcome.ok →
      (connectBLE env s).1.status = "Connected (notifications on)" ∧
      (connectBLE env s).1.charRef = some saved.id ∧
      (connectBLE env s).1.getDevCalls = s.getDevCalls ∧
      (connectBLE env s).1.attempts = s.attempts ++ [(saved.id, false)]) := by
  constructor
  · intro s a rid devs saved e hdone hb hg hst hdevs hfind herr hges
    unfold autoReconnectEffect
    split
    next hcond =>
      rw [hdone] at hcond
      cases hcond
    · (try dsimp only)
      split
      next hcond =>
        rw [hb] at hcond
        simp at hcond
      · split
        next hcond =>
          rw [hg] at hcond
          simp at hcond
        · split
          next hst2 =>
            have hss : s.storage = none := hst2
            rw [hst] at hss
            cases hss
          next rid2 hst2 =>
            have hr : rid2 = rid := by
              have hss : s.storage = some rid2 := hst2
              rw [hst] at hss
              exact (Option.some.inj hss).symm
            subst hr
            (try dsimp only)
            split
            next e2 hdevs2 =>
              rw [hdevs] at hdevs2
              cases hdevs2
            next devs2 hdevs2 =>
              have hd : devs2 = devs := by
                rw [hdevs] at hdevs2
                exact (Except.ok.inj hdevs2).symm
              subst hd
              split
              next hfind2 =>
                rw [hfind] at hfind2
                cases hfind2
              next saved2 hfind2 =>
                have hsv : saved2 = saved := by
                  rw [hfind] at hfind2
                  exact (Option.some.inj hfind2).symm
                subst hsv
                split
                next t heq =>
                  exfalso
                  have hok := ctd_ok_outcome (by rw [heq])
                  rw [hok] at herr
                  cases herr
                next t e2 heq =>
                  have herr2 : a.connOut.errOf = some e2 :=
                    ctd_failed_err (by rw [heq])
                  have he2 : e2 = e := by
                    rw [herr] at herr2
                    exact (Option.some.inj herr2).symm
                  subst he2
                  split
                  · exact ⟨rfl, rfl⟩
                  next hng =>
                    rw [hges] at hng
                    simp at hng
                next t e2 heq =>
                  exfalso
                  have h2 := congrArg Prod.snd heq
                  rw [ctd_result] at h2
                  cases hco : a.connOut <;> (rw [hco] at h2; simp at h2)
  · intro s env saved hdev hok
    unfold connectBLE
    split
    next d hdev2 =>
      have hds : saved = d := by
        rw [hdev] at hdev2
        exact Option.some.inj hdev2
      subst hds
      (try dsimp only)
      split
      next t heq =>
        rw [hok] at heq
        obtain ⟨c1, -, -, -⟩ := ctd_ok_char saved false
          (push "Attempting to reconnect using saved device in memory." s)
        obtain ⟨-, -, -, -, f5, -, -, f8⟩ := ctd_fields saved false ConnOutcome.ok
          (push "Attempting to reconnect using saved device in memory." s)
        have hstat := ctd_status saved false ConnOutcome.ok
          (push "Attempting to reconnect using saved device in memory." s)
        rw [heq] at c1 f5 f8 hstat
        rw [if_pos rfl] at hstat
        exact ⟨hstat, c1, f5, f8⟩
      next t heq =>
        exfalso
        rw [hok] at heq
        have h2 := congrArg Prod.snd heq
        rw [ctd_result] at h2
        simp at h2
      next t e heq =>
        exfalso
        rw [hok] at heq
        have h2 := congrArg Prod.snd heq
        rw [ctd_result] at h2
        simp at h2
    next hdev2 =>
      rw [hdev] at hdev2
      cases hdev2

/-- Witness for C7: the concrete gesture-required mount run, then a click
that reuses the retained device without enumerating. -/
theorem C7_witness :
    ((autoReconnectEffect autoGesture (initSt (some "idA"))).status =
        "Waiting for user action" ∧
     (autoReconnectEffect autoGesture (initSt (some "idA"))).deviceRef =
        some devA) ∧
    ((connectBLE envReuseA stGesture).1.status = "Connected (notifications on)" ∧
     (connectBLE envReuseA stGesture).1.charRef = some devA.id ∧
     (connectBLE envReuseA stGesture).1.getDevCalls = stGesture.getDevCalls ∧
     (connectBLE envReuseA stGesture).1.attempts =
       stGesture.attempts ++ [(devA.id, false)]) :=
  ⟨C7_gesture_then_reuse.1 (initSt (some "idA")) autoGesture "idA" [devA] devA
      errGesture rfl rfl rfl rfl rfl (by decide) rfl (by decide),
   C7_gesture_then_reuse.2 stGesture envReuseA devA (by decide) rfl⟩

end Beep
